import Mathlib

set_option maxRecDepth 10000

/-! Shallow embedding of the nvidia-ai-chat Go client (main.go, models.go):
the per-model parameter schema, settings merging, conversation-file
operations, payload construction, and the streaming / non-streaming
response decoders, together with proofs about them. -/

namespace NvidiaChat

/-- Go interface-typed values as they appear in this program: the JSON
decoder (encoding/json) produces null, bool, float64, string, array and
object values; model-parameter defaults may additionally be Go int
constants.  float64 numbers are modelled as exact rationals. -/
inductive GoValue where
  | null
  | bool (b : Bool)
  | int (n : Int)
  | float (q : ℚ)
  | str (s : String)
  | arr (xs : List GoValue)
  | obj (fields : List (String × GoValue))
  deriving BEq, Repr

/-- The ParameterType constants of models.go: Float, Int, String, Bool, StringA. -/
inductive ParameterType where
  | float
  | int
  | string
  | bool
  | stringArray
  deriving DecidableEq, Repr

/-- ModelParameter of models.go (the display-only Description field is
omitted: no claim depends on it). -/
structure ModelParameter where
  type : ParameterType
  default : GoValue
  min : ℚ := 0
  max : ℚ := 0
  options : List String := []
  apiKey : String := ""
  deriving BEq, Repr

/-- ModelDefinition of models.go.  The Go Parameters map is embedded as an
association list with the source's entry order. -/
structure ModelDefinition where
  prependedSystemMessageOnThinking : String := ""
  chatTemplateKwargsThinking : Bool := false
  parameters : List (String × ModelParameter)
  deriving BEq, Repr

/-- A chat message, struct Message of main.go. -/
structure Message where
  role : String
  content : String
  deriving DecidableEq, Repr

/-- Model of Go strconv.ParseBool. -/
def goParseBool (s : String) : Option Bool :=
  if s = "1" ∨ s = "t" ∨ s = "T" ∨ s = "TRUE" ∨ s = "true" ∨ s = "True" then some true
  else if s = "0" ∨ s = "f" ∨ s = "F" ∨ s = "FALSE" ∨ s = "false" ∨ s = "False" then
    some false
  else none

/-- Decimal digits to a natural number. -/
def digitsToNat (ds : List Char) : Nat :=
  ds.foldl (fun n c => n * 10 + (c.toNat - 48)) 0

/-- Model of Go strconv.Atoi (base 10, 64-bit range). -/
def goAtoi (s : String) : Option Int :=
  let p : Int × List Char :=
    match s.data with
    | '+' :: r => (1, r)
    | '-' :: r => (-1, r)
    | r => (1, r)
  if p.2 = [] then none
  else if p.2.all Char.isDigit then
    let v : Int := p.1 * (digitsToNat p.2 : Int)
    if v < -(2 ^ 63) ∨ v > 2 ^ 63 - 1 then none else some v
  else none

/-- The exact rational m * 10^(e - k), built without the irreducible ℚ
field operations so that proofs can evaluate it. -/
def decScaled (m : Int) (e k : Int) : ℚ :=
  let t : Int := e - k
  if 0 ≤ t then ((m * 10 ^ t.toNat : Int) : ℚ)
  else mkRat m (10 ^ (-t).toNat)

/-- Model of Go strconv.ParseFloat on the decimal syntax
sign digits [. digits] [(e|E) sign digits], parsed exactly into ℚ
(the special values NaN, Inf and hexadecimal floats are out of scope). -/
def goParseFloat (s : String) : Option ℚ :=
  let p : Int × List Char :=
    match s.data with
    | '+' :: r => (1, r)
    | '-' :: r => (-1, r)
    | r => (1, r)
  let ip := p.2.takeWhile Char.isDigit
  let rest1 := p.2.dropWhile Char.isDigit
  let fq : List Char × List Char :=
    match rest1 with
    | '.' :: r => (r.takeWhile Char.isDigit, r.dropWhile Char.isDigit)
    | r => ([], r)
  if ip = [] ∧ fq.1 = [] then none
  else
    let m : Int := p.1 * (digitsToNat (ip ++ fq.1) : Int)
    match fq.2 with
    | [] => some (decScaled m 0 fq.1.length)
    | e :: r =>
      if e = 'e' ∨ e = 'E' then
        let ep : Int × List Char :=
          match r with
          | '+' :: r2 => (1, r2)
          | '-' :: r2 => (-1, r2)
          | r2 => (1, r2)
        let ed := ep.2.takeWhile Char.isDigit
        let r2 := ep.2.dropWhile Char.isDigit
        if ed = [] ∨ r2 ≠ [] then none
        else some (decScaled m (ep.1 * (digitsToNat ed : Int)) fq.1.length)
      else none

/-- Model of strconv.FormatBool and fmt %v on a bool. -/
def formatBool (b : Bool) : String := if b then "true" else "false"

/-- Model of fmt %d on an int. -/
def formatInt (n : Int) : String := toString n

/-- Least k at most 40 with den dividing 10^k. -/
def decExp (den : Nat) : Nat :=
  ((List.range 41).filter fun k => 10 ^ k % den = 0).headD 0

/-- Model of fmt %g for the finite-decimal float64 values this program
handles: shortest plain decimal form, no scientific notation. -/
def formatG (q : ℚ) : String :=
  let k := decExp q.den
  let n : Int := Int.tdiv (q.num * ((10 ^ k : Nat) : Int)) (q.den : Int)
  let sgn := if n < 0 then "-" else ""
  let m := n.natAbs
  if k = 0 then sgn ++ toString m
  else
    let ip := m / 10 ^ k
    let fp := m % 10 ^ k
    let fstr := toString fp
    let fstr := String.mk (List.replicate (k - fstr.length) '0') ++ fstr
    sgn ++ toString ip ++ "." ++ fstr

/-- Model of Go int(v) conversion from float64: truncation toward zero. -/
def goTruncInt (q : ℚ) : Int := Int.tdiv q.num q.den

/-- Model of Go strings.ToUpper restricted to ASCII. -/
def goToUpper (s : String) : String :=
  String.mk (s.data.map fun c => if 'a' ≤ c ∧ c ≤ 'z' then Char.ofNat (c.toNat - 32) else c)

/-- Model of Go strings.TrimSpace restricted to ASCII whitespace. -/
def goTrimSpace (s : String) : String :=
  let ws : Char → Bool := fun c =>
    c = ' ' ∨ c = '\t' ∨ c = '\n' ∨ c = '\r' ∨ c = Char.ofNat 11 ∨ c = Char.ofNat 12
  String.mk (((s.data.dropWhile ws).reverse.dropWhile ws).reverse)

/-- ModelDefinitions of models.go, embedded as an association list in source
order (the Description fields are omitted). -/
def ModelDefinitions : List (String × ModelDefinition) := [
  ("openai/gpt-oss-120b", { parameters := [
    ("temperature", { type := .float, default := .float 1, min := 0, max := 1, apiKey := "temperature" }),
    ("top_p", { type := .float, default := .float 1, min := mkRat 1 100, max := 1, apiKey := "top_p" }),
    ("frequency_penalty", { type := .float, default := .float 0, min := -2, max := 2, apiKey := "frequency_penalty" }),
    ("presence_penalty", { type := .float, default := .float 0, min := -2, max := 2, apiKey := "presence_penalty" }),
    ("max_tokens", { type := .int, default := .int 4096, min := 1, max := 4096, apiKey := "max_tokens" }),
    ("stop", { type := .stringArray, default := .str "", apiKey := "stop" }),
    ("reasoning_effort", { type := .string, default := .str "medium", options := ["low", "medium", "high"], apiKey := "reasoning_effort" })] }),
  ("bytedance/seed-oss-36b-instruct", { parameters := [
    ("temperature", { type := .float, default := .float (mkRat 11 10), min := 0, max := 2, apiKey := "temperature" }),
    ("top_p", { type := .float, default := .float (mkRat 95 100), min := mkRat 1 100, max := 1, apiKey := "top_p" }),
    ("max_tokens", { type := .int, default := .int 4096, min := 1, apiKey := "max_tokens" }),
    ("thinking_budget", { type := .int, default := .int (-1), min := -1, max := 16384, apiKey := "thinking_budget" }),
    ("frequency_penalty", { type := .float, default := .float 0, min := -2, max := 2, apiKey := "frequency_penalty" }),
    ("presence_penalty", { type := .float, default := .float 0, min := -2, max := 2, apiKey := "presence_penalty" }),
    ("stop", { type := .stringArray, default := .str "", apiKey := "stop" }),
    ("seed", { type := .int, default := .int 0, apiKey := "seed" })] }),
  ("qwen/qwen3-coder-480b-a35b-instruct", { parameters := [
    ("temperature", { type := .float, default := .float (mkRat 7 10), min := 0, max := 1, apiKey := "temperature" }),
    ("top_p", { type := .float, default := .float (mkRat 8 10), min := mkRat 1 100, max := 1, apiKey := "top_p" }),
    ("frequency_penalty", { type := .float, default := .float 0, min := -2, max := 2, apiKey := "frequency_penalty" }),
    ("presence_penalty", { type := .float, default := .float 0, min := -2, max := 2, apiKey := "presence_penalty" }),
    ("max_tokens", { type := .int, default := .int 4096, min := 1, max := 16384, apiKey := "max_tokens" }),
    ("stop", { type := .stringArray, default := .str "", apiKey := "stop" })] }),
  ("nvidia/nvidia-nemotron-nano-9b-v2", {
    prependedSystemMessageOnThinking := "/think",
    parameters := [
    ("temperature", { type := .float, default := .float (mkRat 6 10), min := 0, max := 1, apiKey := "temperature" }),
    ("top_p", { type := .float, default := .float (mkRat 95 100), min := mkRat 1 100, max := 1, apiKey := "top_p" }),
    ("max_tokens", { type := .int, default := .int 2048, min := 1, max := 8192, apiKey := "max_tokens" }),
    ("min_thinking_tokens", { type := .int, default := .int 1024, min := 1, max := 4096, apiKey := "min_thinking_tokens" }),
    ("max_thinking_tokens", { type := .int, default := .int 2048, min := 1, max := 4096, apiKey := "max_thinking_tokens" }),
    ("frequency_penalty", { type := .float, default := .float 0, min := -2, max := 2, apiKey := "frequency_penalty" }),
    ("presence_penalty", { type := .float, default := .float 0, min := -2, max := 2, apiKey := "presence_penalty" }),
    ("stop", { type := .stringArray, default := .str "", apiKey := "stop" }),
    ("seed", { type := .int, default := .int 0, apiKey := "seed" })] }),
  ("nvidia/llama-3.3-nemotron-super-49b-v1.5", {
    prependedSystemMessageOnThinking := "/think",
    parameters := [
    ("temperature", { type := .float, default := .float (mkRat 6 10), min := 0, max := 1, apiKey := "temperature" }),
    ("top_p", { type := .float, default := .float (mkRat 95 100), min := mkRat 1 100, max := 1, apiKey := "top_p" }),
    ("max_tokens", { type := .int, default := .int 65536, min := 1, apiKey := "max_tokens" }),
    ("frequency_penalty", { type := .float, default := .float 0, min := -2, max := 2, apiKey := "frequency_penalty" }),
    ("presence_penalty", { type := .float, default := .float 0, min := -2, max := 2, apiKey := "presence_penalty" }),
    ("stop", { type := .stringArray, default := .str "", apiKey := "stop" }),
    ("seed", { type := .int, default := .int 0, apiKey := "seed" }),
    ("thinking", { type := .bool, default := .bool false, apiKey := "" })] }),
  ("mistralai/mistral-nemotron", { parameters := [
    ("temperature", { type := .float, default := .float (mkRat 6 10), min := 0, max := 1, apiKey := "temperature" }),
    ("top_p", { type := .float, default := .float (mkRat 7 10), min := mkRat 1 100, max := 1, apiKey := "top_p" }),
    ("frequency_penalty", { type := .float, default := .float 0, min := -2, max := 2, apiKey := "frequency_penalty" }),
    ("presence_penalty", { type := .float, default := .float 0, min := -2, max := 2, apiKey := "presence_penalty" }),
    ("max_tokens", { type := .int, default := .int 4096, min := 1, max := 4096, apiKey := "max_tokens" }),
    ("stop", { type := .stringArray, default := .str "", apiKey := "stop" })] }),
  ("mistralai/mistral-small-24b-instruct", { parameters := [
    ("temperature", { type := .float, default := .float (mkRat 2 10), min := 0, max := 1, apiKey := "temperature" }),
    ("top_p", { type := .float, default := .float (mkRat 7 10), min := mkRat 1 100, max := 1, apiKey := "top_p" }),
    ("frequency_penalty", { type := .float, default := .float 0, min := -2, max := 2, apiKey := "frequency_penalty" }),
    ("presence_penalty", { type := .float, default := .float 0, min := -2, max := 2, apiKey := "presence_penalty" }),
    ("max_tokens", { type := .int, default := .int 1024, min := 1, max := 8192, apiKey := "max_tokens" }),
    ("stop", { type := .stringArray, default := .str "", apiKey := "stop" })] }),
  ("deepseek-ai/deepseek-v3.1", {
    chatTemplateKwargsThinking := true,
    parameters := [
    ("temperature", { type := .float, default := .float (mkRat 2 10), min := mkRat 1 100, max := 1, apiKey := "temperature" }),
    ("top_p", { type := .float, default := .float (mkRat 7 10), min := mkRat 1 100, max := 1, apiKey := "top_p" }),
    ("max_tokens", { type := .int, default := .int 8192, min := 1, max := 16384, apiKey := "max_tokens" }),
    ("stop", { type := .stringArray, default := .str "", apiKey := "stop" }),
    ("seed", { type := .int, default := .null, apiKey := "seed" }),
    ("thinking", { type := .bool, default := .bool true, apiKey := "" })] }),
  ("deepseek-ai/deepseek-r1-distill-qwen-32b", { parameters := [
    ("temperature", { type := .float, default := .float (mkRat 6 10), min := 0, max := 1, apiKey := "temperature" }),
    ("top_p", { type := .float, default := .float (mkRat 7 10), min := mkRat 1 100, max := 1, apiKey := "top_p" }),
    ("frequency_penalty", { type := .float, default := .float 0, min := -2, max := 2, apiKey := "frequency_penalty" }),
    ("presence_penalty", { type := .float, default := .float 0, min := -2, max := 2, apiKey := "presence_penalty" }),
    ("max_tokens", { type := .int, default := .int 4096, min := 1, max := 4096, apiKey := "max_tokens" }),
    ("stop", { type := .stringArray, default := .str "", apiKey := "stop" })] }),
  ("deepseek-ai/deepseek-r1-distill-llama-8b", { parameters := [
    ("temperature", { type := .float, default := .float (mkRat 6 10), min := 0, max := 1, apiKey := "temperature" }),
    ("top_p", { type := .float, default := .float (mkRat 7 10), min := mkRat 1 100, max := 1, apiKey := "top_p" }),
    ("frequency_penalty", { type := .float, default := .float 0, min := -2, max := 2, apiKey := "frequency_penalty" }),
    ("presence_penalty", { type := .float, default := .float 0, min := -2, max := 2, apiKey := "presence_penalty" }),
    ("max_tokens", { type := .int, default := .int 4096, min := 1, max := 4096, apiKey := "max_tokens" }),
    ("stop", { type := .stringArray, default := .str "", apiKey := "stop" })] }),
  ("deepseek-ai/deepseek-r1-0528", { parameters := [
    ("temperature", { type := .float, default := .float (mkRat 6 10), min := 0, max := 1, apiKey := "temperature" }),
    ("top_p", { type := .float, default := .float (mkRat 7 10), min := mkRat 1 100, max := 1, apiKey := "top_p" }),
    ("frequency_penalty", { type := .float, default := .float 0, min := -2, max := 2, apiKey := "frequency_penalty" }),
    ("presence_penalty", { type := .float, default := .float 0, min := -2, max := 2, apiKey := "presence_penalty" }),
    ("max_tokens", { type := .int, default := .int 4096, min := 1, max := 4096, apiKey := "max_tokens" }),
    ("stop", { type := .stringArray, default := .str "", apiKey := "stop" })] }),
  ("qwen/qwen3-next-80b-a3b-instruct", { parameters := [
    ("temperature", { type := .float, default := .float (mkRat 6 10), min := 0, max := 1, apiKey := "temperature" }),
    ("top_p", { type := .float, default := .float (mkRat 7 10), min := mkRat 1 100, max := 1, apiKey := "top_p" }),
    ("frequency_penalty", { type := .float, default := .float 0, min := -2, max := 2, apiKey := "frequency_penalty" }),
    ("presence_penalty", { type := .float, default := .float 0, min := -2, max := 2, apiKey := "presence_penalty" }),
    ("max_tokens", { type := .int, default := .int 4096, min := 1, max := 4096, apiKey := "max_tokens" }),
    ("stop", { type := .stringArray, default := .str "", apiKey := "stop" })] }),
  ("qwen/qwen3-next-80b-a3b-thinking", { parameters := [
    ("temperature", { type := .float, default := .float (mkRat 6 10), min := 0, max := 1, apiKey := "temperature" }),
    ("top_p", { type := .float, default := .float (mkRat 7 10), min := mkRat 1 100, max := 1, apiKey := "top_p" }),
    ("frequency_penalty", { type := .float, default := .float 0, min := -2, max := 2, apiKey := "frequency_penalty" }),
    ("presence_penalty", { type := .float, default := .float 0, min := -2, max := 2, apiKey := "presence_penalty" }),
    ("max_tokens", { type := .int, default := .int 4096, min := 1, max := 4096, apiKey := "max_tokens" }),
    ("stop", { type := .stringArray, default := .str "", apiKey := "stop" })] }),
  ("moonshotai/kimi-k2-instruct-0905", { parameters := [
    ("temperature", { type := .float, default := .float (mkRat 6 10), min := 0, max := 1, apiKey := "temperature" }),
    ("top_p", { type := .float, default := .float (mkRat 9 10), min := mkRat 1 100, max := 1, apiKey := "top_p" }),
    ("max_tokens", { type := .int, default := .int 4096, min := 1, max := 16384, apiKey := "max_tokens" }),
    ("stop", { type := .stringArray, default := .str "", apiKey := "stop" })] }),
  ("google/codegemma-7b", { parameters := [
    ("temperature", { type := .float, default := .float (mkRat 5 10), min := 0, max := 1, apiKey := "temperature" }),
    ("top_p", { type := .float, default := .float 1, min := 0, max := 1, apiKey := "top_p" }),
    ("max_tokens", { type := .int, default := .int 1024, min := 1, max := 1024, apiKey := "max_tokens" }),
    ("stop", { type := .stringArray, default := .str "", apiKey := "stop" }),
    ("seed", { type := .int, default := .int 0, apiKey := "seed" })] }),
  ("google/gemma-7b", { parameters := [
    ("temperature", { type := .float, default := .float (mkRat 5 10), min := 0, max := 1, apiKey := "temperature" }),
    ("top_p", { type := .float, default := .float 1, min := 0, max := 1, apiKey := "top_p" }),
    ("max_tokens", { type := .int, default := .int 1024, min := 1, max := 1024, apiKey := "max_tokens" }),
    ("stop", { type := .stringArray, default := .str "", apiKey := "stop" })] }),
  ("mistralai/mixtral-8x22b-instruct-v0.1", { parameters := [
    ("temperature", { type := .float, default := .float (mkRat 5 10), min := 0, max := 1, apiKey := "temperature" }),
    ("top_p", { type := .float, default := .float 1, min := 0, max := 1, apiKey := "top_p" }),
    ("max_tokens", { type := .int, default := .int 1024, min := 1, max := 1024, apiKey := "max_tokens" }),
    ("stop", { type := .stringArray, default := .str "", apiKey := "stop" }),
    ("seed", { type := .int, default := .int 0, apiKey := "seed" })] }),
  ("others", { parameters := [
    ("temperature", { type := .float, default := .float (mkRat 5 10), min := 0, max := 1, apiKey := "temperature" }),
    ("top_p", { type := .float, default := .float 1, min := 0, max := 1, apiKey := "top_p" }),
    ("max_tokens", { type := .int, default := .int 1024, min := 1, apiKey := "max_tokens" }),
    ("frequency_penalty", { type := .float, default := .float 0, min := -2, max := 2, apiKey := "frequency_penalty" }),
    ("presence_penalty", { type := .float, default := .float 0, min := -2, max := 2, apiKey := "presence_penalty" }),
    ("stop", { type := .stringArray, default := .str "", apiKey := "stop" })] })]

/-- GetModelDefinition of models.go: the named definition, or the generic
"others" definition when the name is absent (a missing "others" entry would
read as the Go zero value, as map indexing does). -/
def GetModelDefinition (modelName : String) : ModelDefinition :=
  match ModelDefinitions.lookup modelName with
  | some d => d
  | none =>
    match ModelDefinitions.lookup "others" with
    | some d => d
    | none => { parameters := [] }

/-- A session cfg, Go map[string]string with key-presence observable. -/
abbrev Cfg := String → Option String

/-- Setting a key in the cfg map. -/
def cfgSet (cfg : Cfg) (k v : String) : Cfg := fun x => if x = k then some v else cfg x

/-- Go map read without the ok flag: a missing key reads as the empty string. -/
def cfgGet (cfg : Cfg) (k : String) : String := (cfg k).getD ""

/-- Insertion into a string-keyed association list with Go map update
semantics: replace the existing entry or add one. -/
def alistInsert {α : Type} (l : List (String × α)) (k : String) (v : α) :
    List (String × α) :=
  match l with
  | [] => [(k, v)]
  | (k2, v2) :: rest => if k2 = k then (k, v) :: rest else (k2, v2) :: alistInsert rest k v

/-- The distinct outcomes of validateParameter of main.go; none stands for
the Go nil return. -/
inductive ValidationError where
  | invalidBoolStream
  | invalidHistoryLimit
  | unknownParameter
  | invalidFloat
  | floatOutOfRange
  | invalidInt
  | intOutOfRange
  | invalidOption
  | invalidBool
  deriving DecidableEq, Repr

/-- validateParameter of main.go (lines 1592-1651). -/
def validateParameter (paramName value : String) (modelDef : ModelDefinition) :
    Option ValidationError :=
  match modelDef.parameters.lookup paramName with
  | none =>
    if paramName = "stream" then
      match goParseBool value with
      | none => some .invalidBoolStream
      | some _ => none
    else if paramName = "history_limit" then
      match goAtoi value with
      | none => some .invalidHistoryLimit
      | some v => if v < 0 then some .invalidHistoryLimit else none
    else some .unknownParameter
  | some param =>
    match param.type with
    | .float =>
      match goParseFloat value with
      | none => some .invalidFloat
      | some v =>
        if (param.min ≠ 0 ∨ param.max ≠ 0) ∧ (v < param.min ∨ v > param.max) then
          some .floatOutOfRange
        else none
    | .int =>
      match goAtoi value with
      | none => some .invalidInt
      | some v =>
        if (param.min ≠ 0 ∨ param.max ≠ 0) ∧ ((v : ℚ) < param.min ∨ (v : ℚ) > param.max) then
          some .intOutOfRange
        else none
    | .string =>
      if param.options ≠ [] ∧ ¬ param.options.contains value then some .invalidOption
      else none
    | .bool =>
      match goParseBool value with
      | none => some .invalidBool
      | some _ => none
    | .stringArray => none

/-- The acceptance condition of validateParameter as the specification words
it: the value parses at the declared type, lies in the declared range when
the range is non-trivial, and matches one of the declared options for a
string parameter; an unknown name is accepted only as the global stream
(any boolean) or history_limit (any non-negative integer) setting. -/
def ClaimedValid (paramName value : String) (modelDef : ModelDefinition) : Prop :=
  match modelDef.parameters.lookup paramName with
  | some param =>
    match param.type with
    | .float => ∃ v, goParseFloat value = some v ∧
        ((param.min ≠ 0 ∨ param.max ≠ 0) → param.min ≤ v ∧ v ≤ param.max)
    | .int => ∃ v, goAtoi value = some v ∧
        ((param.min ≠ 0 ∨ param.max ≠ 0) → param.min ≤ (v : ℚ) ∧ (v : ℚ) ≤ param.max)
    | .string => param.options ≠ [] → param.options.contains value
    | .bool => ∃ v, goParseBool value = some v
    | .stringArray => True
  | none =>
    (paramName = "stream" ∧ ∃ b, goParseBool value = some b) ∨
    (paramName = "history_limit" ∧ ∃ v, goAtoi value = some v ∧ 0 ≤ v)

/-- TopLevelSettings of main.go; settings maps are association lists. -/
structure TopLevelSettings where
  stream : Bool
  historyLimit : Int
  default : List (String × GoValue)
  models : List (String × List (String × GoValue))
  deriving Repr

/-- ConversationFile of main.go. -/
structure ConversationFile where
  system : String
  settings : TopLevelSettings
  messages : List Message
  deriving Repr

/-- appendMessage of main.go as a pure transformation of the parsed
conversation file: read, append one role/content entry, write back. -/
def appendMessage (cf : ConversationFile) (role content : String) : ConversationFile :=
  { cf with messages := cf.messages ++ [{ role := role, content := content }] }

/-- The /clear branch of handleInteractiveInput: messages replaced by the
empty list. -/
def clearMessages (cf : ConversationFile) : ConversationFile :=
  { cf with messages := [] }

/-- persistSystemToFile of main.go. -/
def persistSystemToFile (cf : ConversationFile) (content : String) : ConversationFile :=
  { cf with system := content }

/-- defaultHistoryLimit of main.go. -/
def defaultHistoryLimit : Int := 40

/-- mustAtoi of main.go. -/
def mustAtoi (s : String) (d : Int) : Int := (goAtoi s).getD d

/-- persistSettingsToFile of main.go: copy each schema parameter present in
the session cfg into the active model's settings entry, then the global
stream and history-limit settings. -/
def persistSettingsToFile (cfg : Cfg) (cf : ConversationFile) : ConversationFile :=
  let modelName := cfgGet cfg "MODEL"
  let modelDef := GetModelDefinition modelName
  let ms0 := (cf.settings.models.lookup modelName).getD []
  let ms := modelDef.parameters.foldl (fun ms kp =>
    match cfg (goToUpper kp.1) with
    | none => ms
    | some valStr =>
      match kp.2.type with
      | .float =>
        match goParseFloat valStr with
        | some v => alistInsert ms kp.1 (.float v)
        | none => ms
      | .int =>
        match goAtoi valStr with
        | some v => alistInsert ms kp.1 (.int v)
        | none => ms
      | .string => alistInsert ms kp.1 (.str valStr)
      | .stringArray => alistInsert ms kp.1 (.str valStr)
      | .bool =>
        match goParseBool valStr with
        | some v => alistInsert ms kp.1 (.bool v)
        | none => ms) ms0
  { cf with settings := { cf.settings with
      models := alistInsert cf.settings.models modelName ms
      stream := cfgGet cfg "STREAM" = "true"
      historyLimit := mustAtoi (cfgGet cfg "HISTORY_LIMIT") defaultHistoryLimit } }

/-- The operations a session performs on the conversation file. -/
inductive SessionOp where
  | append (role content : String)
  | clear
  | persistSystem (content : String)
  | persistSettings (cfg : Cfg)

/-- Effect of one session operation on the conversation file. -/
def applySessionOp (op : SessionOp) (cf : ConversationFile) : ConversationFile :=
  match op with
  | .append role content => appendMessage cf role content
  | .clear => clearMessages cf
  | .persistSystem content => persistSystemToFile cf content
  | .persistSettings cfg => persistSettingsToFile cfg cf

/-- messageCount of main.go. -/
def messageCount (cf : ConversationFile) : Nat := cf.messages.length

/-- The startup message-count guard of interactive main (lines 1245-1253):
parse the limit (0 on error), refuse a non-positive limit, refuse a file
already at or above the limit; the file itself is never modified. -/
def startupLimitCheck (cf : ConversationFile) (cfg : Cfg) : Except String ConversationFile :=
  let limit := (goAtoi (cfgGet cfg "HISTORY_LIMIT")).getD 0
  if limit ≤ 0 then .error "Invalid limit"
  else if (messageCount cf : Int) ≥ limit then .error "Conversation message limit reached"
  else .ok cf

/-- Result of one processMessage turn: the persisted file, whether the HTTP
call was reached, the request message list that was (or would have been)
sent, and whether the turn returned an error. -/
structure TurnResult where
  file : ConversationFile
  apiCalled : Bool
  requestMessages : List Message
  error : Bool
  deriving Repr

/-- processMessage of main.go (lines 670-770) with the HTTP transport
abstracted as an oracle: apiResponse none models a failed call or a response
with no parseable text, some t a response whose extracted assistant text is
t.  The user message is appended first; the limit is then re-checked and the
turn aborts, calling no API, when the count exceeds the limit; otherwise the
request messages are assembled (thinking prepend, effective system prompt,
history) and the assistant text, when non-empty, is appended. -/
def processMessageTurn (userInput : String) (cf : ConversationFile) (cfg : Cfg)
    (sysPromptContent : String) (apiResponse : Option String) : TurnResult :=
  let cf1 := appendMessage cf "user" userInput
  let limit := (goAtoi (cfgGet cfg "HISTORY_LIMIT")).getD 0
  if (messageCount cf1 : Int) > limit then
    { file := cf1, apiCalled := false, requestMessages := [], error := true }
  else
    let effectiveSystem := if sysPromptContent ≠ "" then sysPromptContent else cf1.system
    let modelDef := GetModelDefinition (cfgGet cfg "MODEL")
    let pre : List Message :=
      if modelDef.prependedSystemMessageOnThinking ≠ "" then
        if (goParseBool (cfgGet cfg "THINKING")).getD false then
          [{ role := "system", content := modelDef.prependedSystemMessageOnThinking }]
        else if cfgGet cfg "MODEL" = "nvidia/llama-3.3-nemotron-super-49b-v1.5" then
          [{ role := "system", content := "/no_think" }]
        else []
      else []
    let sys : List Message :=
      if effectiveSystem ≠ "" then [{ role := "system", content := effectiveSystem }] else []
    let messages := pre ++ sys ++ cf1.messages
    match apiResponse with
    | some t =>
      if t ≠ "" then
        { file := appendMessage cf1 "assistant" t, apiCalled := true,
          requestMessages := messages, error := false }
      else
        { file := cf1, apiCalled := true, requestMessages := messages, error := false }
    | none => { file := cf1, apiCalled := true, requestMessages := messages, error := true }

/-- The request-message assembly of the interactive loop in main (lines
1341-1360): effective system prompt, then history.  Unlike processMessage,
this path never consults prependedSystemMessageOnThinking. -/
def interactiveBuildMessages (cf : ConversationFile) (sysPromptContent : String) :
    List Message :=
  let effectiveSystem := if sysPromptContent ≠ "" then sysPromptContent else cf.system
  (if effectiveSystem ≠ "" then [{ role := "system", content := effectiveSystem }] else [])
    ++ cf.messages

/-- Conversion of a settings-file value to a cfg string, following the type
switch of applyFileSettingsAsDefaults: a float64 is %g-formatted for Float,
truncated and %d-formatted for Int; strings and bools pass through; any
other runtime type is ignored. -/
def convertSetting (t : ParameterType) (v : GoValue) : Option String :=
  match t with
  | .float =>
    match v with
    | .float q => some (formatG q)
    | _ => none
  | .int =>
    match v with
    | .float q => some (formatInt (goTruncInt q))
    | .int n => some (formatInt n)
    | _ => none
  | .string =>
    match v with
    | .str s => some s
    | _ => none
  | .stringArray =>
    match v with
    | .str s => some s
    | _ => none
  | .bool =>
    match v with
    | .bool b => some (formatBool b)
    | _ => none

/-- One parameter step of applyFileSettingsAsDefaults: a CLI-provided key is
left alone, otherwise a convertible persisted value is copied into cfg. -/
def applyParam (settings : List (String × GoValue)) (provided : String → Bool)
    (cfg : Cfg) (kp : String × ModelParameter) : Cfg :=
  let configKey := goToUpper kp.1
  if provided configKey then cfg
  else
    match settings.lookup kp.1 with
    | none => cfg
    | some value =>
      match convertSetting kp.2.type value with
      | some s => cfgSet cfg configKey s
      | none => cfg

/-- applyFileSettingsAsDefaults of main.go (lines 353-408): the active
model's persisted settings (falling back to the default section when the
model has no entry) fill every schema key not provided on the command line,
then the global stream and history-limit settings. -/
def applyFileSettingsAsDefaults (cf : ConversationFile) (cfg : Cfg)
    (provided : String → Bool) : Cfg :=
  let modelName := cfgGet cfg "MODEL"
  let settings := (cf.settings.models.lookup modelName).getD cf.settings.default
  let cfg := (GetModelDefinition modelName).parameters.foldl (applyParam settings provided) cfg
  let cfg :=
    if provided "STREAM" then cfg else cfgSet cfg "STREAM" (formatBool cf.settings.stream)
  if provided "HISTORY_LIMIT" ∨ cf.settings.historyLimit = 0 then cfg
  else cfgSet cfg "HISTORY_LIMIT" (formatInt cf.settings.historyLimit)

/-- JSON values of the request payload built by buildPayload. -/
inductive PayloadValue where
  | str (s : String)
  | num (q : ℚ)
  | int (n : Int)
  | bool (b : Bool)
  | null
  | messages (ms : List Message)
  | kwargs (thinking : Bool)
  deriving DecidableEq, Repr

/-- The body of the buildPayload parameter loop of main.go: convert the cfg
value at the schema type, skipping empty APIKeys, absent or unparsable cfg
values, seed 0 on non-deepseek models, and empty stop strings. -/
def buildPayloadStep (cfg : Cfg) (modelName : String)
    (pl : List (String × PayloadValue)) (kp : String × ModelParameter) :
    List (String × PayloadValue) :=
  if kp.2.apiKey = "" then pl
  else
    match cfg (goToUpper kp.1) with
    | none => pl
    | some valStr =>
      match kp.2.type with
      | .float =>
        match goParseFloat valStr with
        | some v => alistInsert pl kp.2.apiKey (.num v)
        | none => pl
      | .int =>
        match goAtoi valStr with
        | some v =>
          if kp.1 = "seed" ∧ v = 0 ∧ modelName ≠ "deepseek-ai/deepseek-v3.1" then pl
          else alistInsert pl kp.2.apiKey (.int v)
        | none => pl
      | .string =>
        if kp.1 = "stop" ∧ valStr = "" then pl else alistInsert pl kp.2.apiKey (.str valStr)
      | .stringArray =>
        if kp.1 = "stop" ∧ valStr = "" then pl else alistInsert pl kp.2.apiKey (.str valStr)
      | .bool =>
        match goParseBool valStr with
        | some v => alistInsert pl kp.2.apiKey (.bool v)
        | none => pl

/-- The chat_template_kwargs special handling of buildPayload: for a model
with the ChatTemplateKwargsThinking flag, nest the parsed thinking flag
under chat_template_kwargs. -/
def buildPayloadKwargs (cfg : Cfg) (modelDef : ModelDefinition)
    (pl : List (String × PayloadValue)) : List (String × PayloadValue) :=
  if modelDef.chatTemplateKwargsThinking then
    match goParseBool (cfgGet cfg "THINKING") with
    | some thinking => alistInsert pl "chat_template_kwargs" (.kwargs thinking)
    | none => pl
  else pl

/-- The deepseek seed-nil special handling of buildPayload: when the model
is deepseek v3.1 and no seed key was added, add an explicit null seed. -/
def buildPayloadSeedNull (modelName : String) (pl : List (String × PayloadValue)) :
    List (String × PayloadValue) :=
  if modelName = "deepseek-ai/deepseek-v3.1" then
    match pl.lookup "seed" with
    | none => alistInsert pl "seed" .null
    | some _ => pl
  else pl

/-- buildPayload of main.go (lines 442-508).  The payload map is an
association list; kwargs b stands for the nested object with the single
field thinking = b. -/
def buildPayload (cfg : Cfg) (messages : List Message) : List (String × PayloadValue) :=
  let modelName := cfgGet cfg "MODEL"
  let modelDef := GetModelDefinition modelName
  let payload : List (String × PayloadValue) :=
    [("model", .str modelName), ("messages", .messages messages),
     ("stream", .bool (cfgGet cfg "STREAM" = "true"))]
  let payload := modelDef.parameters.foldl (buildPayloadStep cfg modelName) payload
  buildPayloadSeedNull modelName (buildPayloadKwargs cfg modelDef payload)

/-- The built-in cfg defaults assembled at the top of main (the HISTORY_DIR
entry, which depends on the HOME environment variable, is not needed by any
claim and is omitted). -/
def defaultCfg : Cfg := fun k =>
  if k = "BASE_URL" then some "https://integrate.api.nvidia.com/v1"
  else if k = "MODEL" then some "openai/gpt-oss-120b"
  else if k = "TEMPERATURE" then some "1"
  else if k = "TOP_P" then some "1"
  else if k = "FREQUENCY_PENALTY" then some "0"
  else if k = "PRESENCE_PENALTY" then some "0"
  else if k = "MAX_TOKENS" then some "4096"
  else if k = "STREAM" then some "true"
  else if k = "REASONING_EFFORT" then some "low"
  else if k = "STOP" then some ""
  else if k = "HISTORY_LIMIT" then some "40"
  else none

/-- A flat file system: path to contents. -/
abbrev FS := String → Option String

/-- Writing a whole file at a path. -/
def fsWrite (fs : FS) (p content : String) : FS :=
  fun q => if q = p then some content else fs q

/-- Atomic rename: dst takes the contents of src, src disappears. -/
def fsRename (fs : FS) (src dst : String) : FS :=
  fun q => if q = dst then fs src else if q = src then none else fs q

/-- writeConversation of main.go (lines 264-274) as the sequence of observable
file-system states: the serialized bytes b (the json.MarshalIndent output)
are written to path + ".tmp" - observably as successive prefixes while the
write is in flight - and the temp file is then renamed onto the target.
Every state but the last is a possible crash point. -/
def writeConversationStates (fs : FS) (path b : String) : List FS :=
  ((List.range (b.length + 1)).map fun n =>
    fsWrite fs (path ++ ".tmp") (String.mk (b.data.take n))) ++
  [fsRename (fsWrite fs (path ++ ".tmp") b) (path ++ ".tmp") path]

/-- The opening curly brace character. -/
def lbrace : Char := Char.ofNat 123

/-- The closing curly brace character. -/
def rbrace : Char := Char.ofNat 125

/-- JSON whitespace. -/
def jsonWs (c : Char) : Bool := c = ' ' ∨ c = '\t' ∨ c = '\n' ∨ c = '\r'

/-- Skip leading JSON whitespace. -/
def skipWs : List Char → List Char
  | [] => []
  | c :: cs => if jsonWs c then skipWs cs else c :: cs

/-- Parse a JSON string body after the opening quote (a practical subset:
the common single-character escapes, no \u escapes). -/
def parseStringBody : List Char → Option (List Char × List Char)
  | [] => none
  | '"' :: cs => some ([], cs)
  | '\\' :: c :: cs =>
    let esc : Option Char :=
      if c = '"' then some '"'
      else if c = '\\' then some '\\'
      else if c = '/' then some '/'
      else if c = 'n' then some '\n'
      else if c = 't' then some '\t'
      else if c = 'r' then some '\r'
      else if c = 'b' then some (Char.ofNat 8)
      else if c = 'f' then some (Char.ofNat 12)
      else none
    match esc with
    | none => none
    | some e =>
      match parseStringBody cs with
      | none => none
      | some (s, rest) => some (e :: s, rest)
  | ['\\'] => none
  | c :: cs =>
    match parseStringBody cs with
    | none => none
    | some (s, rest) => some (c :: s, rest)

/-- Characters a JSON number token may contain. -/
def numberChar (c : Char) : Bool :=
  c.isDigit ∨ c = '-' ∨ c = '+' ∨ c = '.' ∨ c = 'e' ∨ c = 'E'

/-- Parse a JSON number token via the strconv float syntax. -/
def parseNumber (cs : List Char) : Option (ℚ × List Char) :=
  let tok := cs.takeWhile numberChar
  let rest := cs.dropWhile numberChar
  if tok = [] then none
  else
    match goParseFloat (String.mk tok) with
    | some q => some (q, rest)
    | none => none

/-- The three grammar productions of the recursive-descent JSON reader: a
single value, the tail of a non-empty array, the tail of a non-empty
object. -/
inductive ParseKind where
  | value
  | elems
  | members

/-- Fuel-bounded recursive-descent JSON reading: for elems the result is the
arr of the remaining elements up to the closing bracket, for members the obj
of the remaining members up to the closing brace. -/
def parseF : Nat → ParseKind → List Char → Option (GoValue × List Char)
  | 0, _, _ => none
  | fuel + 1, .value, cs =>
    match skipWs cs with
    | [] => none
    | c :: rest =>
      if c = '"' then
        match parseStringBody rest with
        | some (s, r) => some (.str (String.mk s), r)
        | none => none
      else if c = lbrace then
        match skipWs rest with
        | c2 :: r =>
          if c2 = rbrace then some (.obj [], r)
          else parseF fuel .members (c2 :: r)
        | [] => none
      else if c = '[' then
        match skipWs rest with
        | ']' :: r => some (.arr [], r)
        | r => parseF fuel .elems r
      else if c = 't' then
        match rest with
        | 'r' :: 'u' :: 'e' :: r => some (.bool true, r)
        | _ => none
      else if c = 'f' then
        match rest with
        | 'a' :: 'l' :: 's' :: 'e' :: r => some (.bool false, r)
        | _ => none
      else if c = 'n' then
        match rest with
        | 'u' :: 'l' :: 'l' :: r => some (.null, r)
        | _ => none
      else
        match parseNumber (c :: rest) with
        | some (q, r) => some (.float q, r)
        | none => none
  | fuel + 1, .elems, cs =>
    match parseF fuel .value cs with
    | none => none
    | some (v, r) =>
      match skipWs r with
      | ',' :: r2 =>
        match parseF fuel .elems r2 with
        | some (.arr vs, r3) => some (.arr (v :: vs), r3)
        | _ => none
      | ']' :: r2 => some (.arr [v], r2)
      | _ => none
  | fuel + 1, .members, cs =>
    match skipWs cs with
    | '"' :: r =>
      match parseStringBody r with
      | none => none
      | some (k, r2) =>
        match skipWs r2 with
        | ':' :: r3 =>
          match parseF fuel .value r3 with
          | none => none
          | some (v, r4) =>
            match skipWs r4 with
            | ',' :: r5 =>
              match parseF fuel .members r5 with
              | some (.obj ms, r6) => some (.obj ((String.mk k, v) :: ms), r6)
              | _ => none
            | c :: r5 => if c = rbrace then some (.obj [(String.mk k, v)], r5) else none
            | [] => none
        | _ => none
    | _ => none

/-- Model of an encoding/json parse of a complete document into interface{}
values (numbers become float64, here exact rationals). -/
def parseJson (s : String) : Option GoValue :=
  match parseF (s.length + 1) .value s.data with
  | some (v, rest) => if skipWs rest = [] then some v else none
  | none => none

/-- ChoiceDelta of main.go: the two optional string pointers. -/
structure ChoiceDelta where
  content : Option String
  reasoningContent : Option String
  deriving DecidableEq, Repr

/-- ChoiceStream of main.go: an optional delta and the fallback message map. -/
structure ChoiceStream where
  delta : Option ChoiceDelta
  message : Option (List (String × GoValue))
  deriving Repr

/-- StreamChunk of main.go. -/
structure StreamChunk where
  choices : List ChoiceStream
  deriving Repr

/-- Decode a JSON value into a Go *string field: null gives the nil
pointer, a string a value, anything else a type error. -/
def decodeOptString : GoValue → Option (Option String)
  | .null => some none
  | .str s => some (some s)
  | _ => none

/-- Decode the fields of a delta object. -/
def decodeChoiceDelta (fields : List (String × GoValue)) : Option ChoiceDelta :=
  let dc :=
    match fields.lookup "content" with
    | none => some none
    | some v => decodeOptString v
  let dr :=
    match fields.lookup "reasoning_content" with
    | none => some none
    | some v => decodeOptString v
  match dc, dr with
  | some c, some r => some { content := c, reasoningContent := r }
  | _, _ => none

/-- Decode one element of the choices array, as encoding/json unmarshals a
ChoiceStream: null leaves the zero value, an object fills the delta pointer
and message map, anything else is a type error. -/
def decodeChoiceStream (v : GoValue) : Option ChoiceStream :=
  match v with
  | .null => some { delta := none, message := none }
  | .obj fields =>
    let dd : Option (Option ChoiceDelta) :=
      match fields.lookup "delta" with
      | none => some none
      | some .null => some none
      | some (.obj dfields) => (decodeChoiceDelta dfields).map some
      | some _ => none
    let dm : Option (Option (List (String × GoValue))) :=
      match fields.lookup "message" with
      | none => some none
      | some .null => some none
      | some (.obj mfields) => some (some mfields)
      | some _ => none
    match dd, dm with
    | some d, some m => some { delta := d, message := m }
    | _, _ => none
  | _ => none

/-- Decode a parsed JSON document into a StreamChunk, as json.Unmarshal
does for the struct: an object (or null) succeeds, unknown fields are
ignored, a mistyped field is an error and the whole chunk is skipped. -/
def decodeStreamChunk (v : GoValue) : Option StreamChunk :=
  match v with
  | .null => some { choices := [] }
  | .obj fields =>
    match fields.lookup "choices" with
    | none => some { choices := [] }
    | some .null => some { choices := [] }
    | some (.arr xs) => (xs.mapM decodeChoiceStream).map fun cs => { choices := cs }
    | some _ => none
  | _ => none

/-- Whether a line carries the SSE data prefix. -/
def hasDataPrefix (line : String) : Bool :=
  match line.data with
  | 'd' :: 'a' :: 't' :: 'a' :: ':' :: ' ' :: _ => true
  | _ => false

/-- Strip the SSE data prefix when present, as handleStream does. -/
def stripDataPrefix (line : String) : String :=
  match line.data with
  | 'd' :: 'a' :: 't' :: 'a' :: ':' :: ' ' :: rest => String.mk rest
  | _ => line

/-- Reasoning and content of the first choice, per handleStream: the delta
fields when the delta pointer is non-nil, the message fields otherwise. -/
def choiceRC (choice : ChoiceStream) : String × String :=
  match choice.delta with
  | some d => (d.reasoningContent.getD "", d.content.getD "")
  | none =>
    match choice.message with
    | some msg =>
      (match msg.lookup "reasoning_content" with
       | some (.str v) => v
       | _ => "",
       match msg.lookup "content" with
       | some (.str v) => v
       | _ => "")
    | none => ("", "")

/-- Per-line classification in handleStream: none for a skipped line
(blank, the DONE marker, an unparsable chunk, or one with no choices),
some (reasoning, content) for a parsed chunk. -/
def streamLineRC (line : String) : Option (String × String) :=
  let line := goTrimSpace (stripDataPrefix line)
  if line = "" then none
  else if line = "[DONE]" then none
  else
    match parseJson line with
    | none => none
    | some j =>
      match decodeStreamChunk j with
      | none => none
      | some chunk =>
        match chunk.choices with
        | [] => none
        | choice :: _ => some (choiceRC choice)

/-- The transcript buffer and reasoning flag of handleStream. -/
structure StreamState where
  buf : String
  inReasoning : Bool
  deriving DecidableEq, Repr

/-- The buffer updates handleStream performs for one parsed chunk: entering
a reasoning run writes the begin sentinel, leaving it writes the end
sentinel. -/
def applyRC (st : StreamState) (rc : String × String) : StreamState :=
  let st :=
    if rc.1 ≠ "" then
      if st.inReasoning then { st with buf := st.buf ++ rc.1 }
      else { buf := st.buf ++ "[Begin of Assistant Reasoning]\n" ++ rc.1, inReasoning := true }
    else st
  if rc.2 ≠ "" then
    if st.inReasoning then
      { buf := st.buf ++ "\n[/End of Assistant Reasoning]\n\n" ++ rc.2, inReasoning := false }
    else { st with buf := st.buf ++ rc.2 }
  else st

/-- One line of the handleStream loop. -/
def processStreamLine (st : StreamState) (line : String) : StreamState :=
  match streamLineRC line with
  | none => st
  | some rc => applyRC st rc

/-- handleStream of main.go (lines 523-613): fold the loop body over the
response lines and close a still-open reasoning block; the result is the
text persisted to the transcript. -/
def handleStream (lines : List String) : String :=
  let st := lines.foldl processStreamLine { buf := "", inReasoning := false }
  if st.inReasoning then st.buf ++ "\n[/End of Assistant Reasoning]\n\n" else st.buf

/-- Reasoning and content extracted by handleNonStream from the parsed
top-level object: the delta fields first, then per-field fallback to the
message fields. -/
def nonStreamRC (fields : List (String × GoValue)) : String × String :=
  let first : Option (List (String × GoValue)) :=
    match fields.lookup "choices" with
    | some (.arr (x :: _)) =>
      match x with
      | .obj ff => some ff
      | _ => none
    | _ => none
  match first with
  | none => ("", "")
  | some ff =>
    let dr : String × String :=
      match ff.lookup "delta" with
      | some (.obj df) =>
        (match df.lookup "reasoning_content" with
         | some (.str v) => v
         | _ => "",
         match df.lookup "content" with
         | some (.str v) => v
         | _ => "")
      | _ => ("", "")
    match ff.lookup "message" with
    | some (.obj mf) =>
      (match mf.lookup "reasoning_content" with
       | some (.str v) => if dr.1 = "" then v else dr.1
       | _ => dr.1,
       match mf.lookup "content" with
       | some (.str v) => if dr.2 = "" then v else dr.2
       | _ => dr.2)
    | _ => dr

/-- handleNonStream of main.go (lines 615-666): parse the body into a
generic map, extract reasoning and content, and return the transcript text;
an error is returned when the body does not unmarshal or when no assistant
text was found.  Note the persisted end sentinel here has no slash. -/
def handleNonStream (body : String) : Except String String :=
  match parseJson body with
  | some (.obj fields) =>
    let rc := nonStreamRC fields
    let out :=
      (if rc.1 ≠ "" then
        "[Begin of Assistant Reasoning]\n" ++ rc.1 ++ "\n[End of Assistant Reasoning]\n\n"
      else "") ++ rc.2
    if out = "" then .error "no assistant content parsed from response" else .ok out
  | some .null => .error "no assistant content parsed from response"
  | some _ => .error "cannot unmarshal into map"
  | none => .error "invalid JSON"

/-- The streamed decoder output exactly as the claim words it: the
concatenation, over the parseable data:-prefixed chunks, of the delta (or
fallback message) reasoning and content fields of the first choice. -/
def claimedStreamOutput (lines : List String) : String :=
  String.join (lines.filterMap fun line =>
    if hasDataPrefix line then (streamLineRC line).map fun rc => rc.1 ++ rc.2
    else none)

/-- The reasoning/content pairs handleStream extracts, one per
non-skipped line. -/
def extractSegments (lines : List String) : List (String × String) :=
  lines.filterMap streamLineRC

/-- Rendering of an extracted reasoning/content sequence with each maximal
run of reasoning text enclosed in the sentinel markers. -/
def renderSegments (segs : List (String × String)) : String :=
  let st := segs.foldl applyRC { buf := "", inReasoning := false }
  if st.inReasoning then st.buf ++ "\n[/End of Assistant Reasoning]\n\n" else st.buf

/-- The value the buildPayload loop contributes for one schema parameter,
or none when the parameter is left out of the payload. -/
def payloadContribution (cfg : Cfg) (modelName : String) (kp : String × ModelParameter) :
    Option PayloadValue :=
  if kp.2.apiKey = "" then none
  else
    match cfg (goToUpper kp.1) with
    | none => none
    | some valStr =>
      match kp.2.type with
      | .float => (goParseFloat valStr).map .num
      | .int =>
        (goAtoi valStr).bind fun v =>
          if kp.1 = "seed" ∧ v = 0 ∧ modelName ≠ "deepseek-ai/deepseek-v3.1" then none
          else some (.int v)
      | .string => if kp.1 = "stop" ∧ valStr = "" then none else some (.str valStr)
      | .stringArray => if kp.1 = "stop" ∧ valStr = "" then none else some (.str valStr)
      | .bool => (goParseBool valStr).map .bool

/-- The omission behaviour of buildPayload exactly as the claim states it:
a schema parameter is absent from the payload only when its APIKey is
empty, or it is the integer seed with value 0 on a non-deepseek model, or
it is stop with the empty-string value. -/
def ClaimedOmission (cfg : Cfg) (messages : List Message) : Prop :=
  ∀ kp ∈ (GetModelDefinition (cfgGet cfg "MODEL")).parameters,
    (buildPayload cfg messages).lookup kp.2.apiKey = none →
      kp.2.apiKey = "" ∨
      (kp.1 = "seed" ∧ kp.2.type = .int ∧ goAtoi (cfgGet cfg (goToUpper kp.1)) = some 0 ∧
        cfgGet cfg "MODEL" ≠ "deepseek-ai/deepseek-v3.1") ∨
      (kp.1 = "stop" ∧ cfgGet cfg (goToUpper kp.1) = "")

/-- Settings with no persisted entries, for concrete instances. -/
def emptySettings : TopLevelSettings :=
  { stream := true, historyLimit := 40, default := [], models := [] }

/-- A conversation file with the given messages and an empty system prompt. -/
def plainFile (msgs : List Message) : ConversationFile :=
  { system := "", settings := emptySettings, messages := msgs }

/-- Session cfg for the llama nemotron model with thinking enabled. -/
def llamaThinkingCfg : Cfg :=
  cfgSet (cfgSet defaultCfg "MODEL" "nvidia/llama-3.3-nemotron-super-49b-v1.5")
    "THINKING" "true"

/-- Session cfg for the deepseek v3.1 model with thinking enabled. -/
def deepseekThinkingCfg : Cfg :=
  cfgSet (cfgSet defaultCfg "MODEL" "deepseek-ai/deepseek-v3.1") "THINKING" "true"

/-- Session cfg for the nemotron nano model, otherwise built-in defaults. -/
def nanoCfg : Cfg := cfgSet defaultCfg "MODEL" "nvidia/nvidia-nemotron-nano-9b-v2"

/-- A conversation file carrying a persisted temperature for the default
model and one in the default settings section. -/
def settingsFile : ConversationFile :=
  { system := "", messages := [],
    settings :=
      { stream := false, historyLimit := 10, default := [("temperature", .float (mkRat 9 10))],
        models := [("openai/gpt-oss-120b", [("temperature", .float (mkRat 7 10))])] } }

/-- A conversation file already holding two messages. -/
def twoMsgFile : ConversationFile :=
  plainFile [{ role := "user", content := "a" }, { role := "assistant", content := "b" }]

/-- The built-in cfg with the history limit set to 2. -/
def limit2Cfg : Cfg := cfgSet defaultCfg "HISTORY_LIMIT" "2"

/-! ## Theorems -/

/-- C2: every session operation on the conversation file appends exactly one
role/content entry (appendMessage), leaves the messages untouched
(persist-system, persist-settings), or - only for the explicit /clear
command - replaces them with the empty list; no operation removes or
reorders existing entries. -/
theorem session_messages_append_only (op : SessionOp) (cf : ConversationFile) :
    (applySessionOp op cf).messages =
      match op with
      | .append role content => cf.messages ++ [{ role := role, content := content }]
      | .clear => []
      | .persistSystem _ => cf.messages
      | .persistSettings _ => cf.messages := by
  cases op <;> rfl

/-- C5: writeConversation is atomic via temp-file-then-rename: in every
observable state before the final rename the target path still holds its
previous contents (so a failure before the rename changes nothing, and the
target never holds a partial document), and the final state holds the
complete serialized bytes at the target. -/
theorem writeConversation_atomic (fs : FS) (path b : String) :
    (∀ st ∈ (writeConversationStates fs path b).dropLast, st path = fs path) ∧
    (∃ last, (writeConversationStates fs path b).getLast? = some last ∧
      last path = some b) := by
  have hne : path ≠ path ++ ".tmp" := by
    intro h
    have hl := congrArg String.length h
    rw [String.length_append] at hl
    have h4 : (".tmp" : String).length = 4 := rfl
    omega
  constructor
  · intro st hst
    rw [writeConversationStates, List.dropLast_concat] at hst
    obtain ⟨n, _, rfl⟩ := List.mem_map.mp hst
    simp [fsWrite, hne]
  · refine ⟨fsRename (fsWrite fs (path ++ ".tmp") b) (path ++ ".tmp") path, ?_, ?_⟩
    · rw [writeConversationStates, List.getLast?_concat]
    · simp [fsRename, fsWrite]

/-- C5 witness: a concrete write on an empty file system ends with the
complete document at the target path. -/
theorem writeConversation_atomic_witness :
    ∃ last, (writeConversationStates (fun _ => none) "c.json" "ab").getLast? = some last ∧
      last "c.json" = some "ab" :=
  (writeConversation_atomic (fun _ => none) "c.json" "ab").2

/-- C9: GetModelDefinition is total: a registered name yields its own
definition, any other string yields the generic others definition, and the
others definition is itself registered. -/
theorem getModelDefinition_total (modelName : String) :
    (∀ d, ModelDefinitions.lookup modelName = some d → GetModelDefinition modelName = d) ∧
    (ModelDefinitions.lookup modelName = none →
      GetModelDefinition modelName = GetModelDefinition "others") ∧
    (ModelDefinitions.lookup "others").isSome = true := by
  refine ⟨?_, ?_, by decide⟩
  · intro d h
    rw [GetModelDefinition, h]
  · intro h
    rw [GetModelDefinition, h, GetModelDefinition]
    rfl

/-- C9 witness: a registered model resolves to its own definition and an
unregistered name falls back to the others definition. -/
theorem getModelDefinition_total_witness :
    GetModelDefinition "google/gemma-7b" = { parameters := [
      ("temperature", { type := .float, default := .float (mkRat 5 10), min := 0, max := 1, apiKey := "temperature" }),
      ("top_p", { type := .float, default := .float 1, min := 0, max := 1, apiKey := "top_p" }),
      ("max_tokens", { type := .int, default := .int 1024, min := 1, max := 1024, apiKey := "max_tokens" }),
      ("stop", { type := .stringArray, default := .str "", apiKey := "stop" })] } ∧
    GetModelDefinition "not-a-registered-model" = GetModelDefinition "others" :=
  ⟨(getModelDefinition_total "google/gemma-7b").1 _ rfl,
   (getModelDefinition_total "not-a-registered-model").2.1 rfl⟩

/-- The persisted file after a processMessage turn is the old file with the
user message appended, possibly followed by one assistant message. -/
theorem processMessageTurn_file_cases (userInput : String) (cf : ConversationFile)
    (cfg : Cfg) (sysPrompt : String) (resp : Option String) :
    (processMessageTurn userInput cf cfg sysPrompt resp).file =
        appendMessage cf "user" userInput ∨
      ∃ t, (processMessageTurn userInput cf cfg sysPrompt resp).file =
        appendMessage (appendMessage cf "user" userInput) "assistant" t := by
  by_cases hc : ((messageCount (appendMessage cf "user" userInput) : Int)) >
      (goAtoi (cfgGet cfg "HISTORY_LIMIT")).getD 0
  · left
    simp only [processMessageTurn, if_pos hc]
  · cases resp with
    | none =>
      left
      simp only [processMessageTurn, if_neg hc]
    | some t =>
      by_cases ht : t = ""
      · left
        simp only [processMessageTurn, if_neg hc, ht]
        simp
      · right
        refine ⟨t, ?_⟩
        simp only [processMessageTurn, if_neg hc]
        simp [ht, appendMessage]

/-- C3: the program never evicts messages to stay under the history limit:
the interactive startup check errors whenever the file's count is at or
above the (parsed) limit and returns the file unchanged otherwise, and a
processMessage turn whose user append pushes the count past the limit
errors without reaching the API, its file holding exactly the old messages
plus the appended user message; on every path the old messages remain an
unchanged prefix of the file. -/
theorem history_limit_refusal
    (cf : ConversationFile) (cfg : Cfg) (userInput sysPrompt : String)
    (resp : Option String) :
    (((messageCount cf : Int) ≥ (goAtoi (cfgGet cfg "HISTORY_LIMIT")).getD 0) →
      ∃ e, startupLimitCheck cf cfg = .error e) ∧
    (∀ r, startupLimitCheck cf cfg = .ok r → r = cf) ∧
    (((messageCount cf : Int) + 1 > (goAtoi (cfgGet cfg "HISTORY_LIMIT")).getD 0) →
      (processMessageTurn userInput cf cfg sysPrompt resp).error = true ∧
      (processMessageTurn userInput cf cfg sysPrompt resp).apiCalled = false ∧
      (processMessageTurn userInput cf cfg sysPrompt resp).file =
        appendMessage cf "user" userInput) ∧
    ((processMessageTurn userInput cf cfg sysPrompt resp).file.messages.take
        cf.messages.length = cf.messages) := by
  refine ⟨?_, ?_, ?_, ?_⟩
  · intro hge
    by_cases h0 : (goAtoi (cfgGet cfg "HISTORY_LIMIT")).getD 0 ≤ 0
    · exact ⟨"Invalid limit", by simp [startupLimitCheck, h0]⟩
    · exact ⟨"Conversation message limit reached", by simp [startupLimitCheck, h0, hge]⟩
  · intro r h
    simp only [startupLimitCheck] at h
    split_ifs at h
    cases h
    rfl
  · intro hgt
    have hmc : messageCount (appendMessage cf "user" userInput) = messageCount cf + 1 := by
      simp [messageCount, appendMessage]
    have hc : ((messageCount (appendMessage cf "user" userInput) : Int)) >
        (goAtoi (cfgGet cfg "HISTORY_LIMIT")).getD 0 := by
      rw [hmc]
      push_cast
      omega
    simp [processMessageTurn, if_pos hc]
  · rcases processMessageTurn_file_cases userInput cf cfg sysPrompt resp with h | ⟨t, h⟩
    · rw [h]
      exact List.take_left cf.messages _
    · rw [h]
      show ((cf.messages ++ _) ++ _).take _ = _
      rw [List.append_assoc]
      exact List.take_left cf.messages _

/-- C3 witness: a two-message file against limit 2 is refused at startup,
and a turn against the same limit aborts before the API call. -/
theorem history_limit_refusal_witness :
    ((messageCount twoMsgFile : Int) ≥
      (goAtoi (cfgGet limit2Cfg "HISTORY_LIMIT")).getD 0) ∧
    (∃ e, startupLimitCheck twoMsgFile limit2Cfg = .error e) ∧
    (processMessageTurn "hi" twoMsgFile limit2Cfg "" (some "ok")).apiCalled = false ∧
    (processMessageTurn "hi" twoMsgFile limit2Cfg "" (some "ok")).file =
      appendMessage twoMsgFile "user" "hi" :=
  ⟨by decide,
   (history_limit_refusal twoMsgFile limit2Cfg "hi" "" (some "ok")).1 (by decide),
   ((history_limit_refusal twoMsgFile limit2Cfg "hi" "" (some "ok")).2.2.1 (by decide)).2.1,
   ((history_limit_refusal twoMsgFile limit2Cfg "hi" "" (some "ok")).2.2.1 (by decide)).2.2⟩

/-- C4: evaluation at the failing input: for the llama nemotron model with
the thinking setting enabled, the processMessage path prepends the /think
control system message before the history, the interactive loop's message
assembly for the same state does not, and for deepseek v3.1 buildPayload
nests the parsed thinking flag under chat_template_kwargs with no top-level
thinking field. -/
theorem thinking_prepend_divergence :
    (processMessageTurn "hi" (plainFile []) llamaThinkingCfg "" (some "ok")).requestMessages =
      [{ role := "system", content := "/think" }, { role := "user", content := "hi" }] ∧
    interactiveBuildMessages (appendMessage (plainFile []) "user" "hi") "" =
      [{ role := "user", content := "hi" }] ∧
    (buildPayload deepseekThinkingCfg []).lookup "chat_template_kwargs" =
      some (.kwargs true) ∧
    (buildPayload deepseekThinkingCfg []).lookup "thinking" = none :=
  ⟨rfl, rfl, rfl, rfl⟩

/-- C6: evaluation at the failing input: for the same reasoning and content
the streaming path persists the slashed end sentinel, the non-streaming
path persists an end marker without the slash, and the two transcript texts
differ. -/
theorem reasoning_marker_divergence :
    handleStream
        ["data: \x7b\"choices\":[\x7b\"delta\":\x7b\"reasoning_content\":\"r\"\x7d\x7d]\x7d",
         "data: \x7b\"choices\":[\x7b\"delta\":\x7b\"content\":\"c\"\x7d\x7d]\x7d"] =
      "[Begin of Assistant Reasoning]\nr\n[/End of Assistant Reasoning]\n\nc" ∧
    handleNonStream
        "\x7b\"choices\":[\x7b\"message\":\x7b\"reasoning_content\":\"r\",\"content\":\"c\"\x7d\x7d]\x7d" =
      .ok "[Begin of Assistant Reasoning]\nr\n[End of Assistant Reasoning]\n\nc" ∧
    ("[Begin of Assistant Reasoning]\nr\n[/End of Assistant Reasoning]\n\nc" : String) ≠
      "[Begin of Assistant Reasoning]\nr\n[End of Assistant Reasoning]\n\nc" :=
  ⟨rfl, rfl, by decide⟩

/-- C8: validateParameter returns nil exactly for the values the
specification describes: the value parses at the schema's declared type,
lies within the declared range whenever Min or Max is non-zero, and for a
string parameter with options matches one of them; an unknown name passes
only as the global stream setting (any boolean) or history_limit (any
non-negative integer). -/
theorem validateParameter_correct (paramName value : String)
    (modelDef : ModelDefinition) :
    validateParameter paramName value modelDef = none ↔
      ClaimedValid paramName value modelDef := by
  cases hl : modelDef.parameters.lookup paramName with
  | none =>
    simp only [validateParameter, ClaimedValid, hl]
    by_cases hs : paramName = "stream"
    · subst hs
      simp only [if_pos rfl]
      cases hb : goParseBool value with
      | none => simp [hb]
      | some b => simp [hb]
    · by_cases hh : paramName = "history_limit"
      · subst hh
        rw [if_neg hs, if_pos rfl]
        cases ha : goAtoi value with
        | none => simp [ha, hs]
        | some v =>
          by_cases hv : v < 0 <;> simp [ha, hv, hs] <;> omega
      · simp [hs, hh]
  | some param =>
    simp only [validateParameter, ClaimedValid, hl]
    cases ht : param.type with
    | float =>
      cases hf : goParseFloat value with
      | none => simp
      | some v =>
        by_cases hA : (param.min ≠ 0 ∨ param.max ≠ 0)
        · constructor
          · intro h
            refine ⟨v, rfl, fun _ => ?_⟩
            by_cases hr : (v < param.min ∨ v > param.max)
            · simp [hA, hr] at h
            · push_neg at hr
              exact ⟨hr.1, hr.2⟩
          · rintro ⟨v2, hv2, hrange⟩
            cases hv2
            have h2 := hrange hA
            have hnr : ¬ (v < param.min ∨ v > param.max) := by
              push_neg
              exact h2
            simp [hnr]
        · simp [hA]
    | int =>
      cases ha : goAtoi value with
      | none => simp
      | some v =>
        by_cases hA : (param.min ≠ 0 ∨ param.max ≠ 0)
        · constructor
          · intro h
            refine ⟨v, rfl, fun _ => ?_⟩
            by_cases hr : ((v : ℚ) < param.min ∨ (v : ℚ) > param.max)
            · simp [hA, hr] at h
            · push_neg at hr
              exact ⟨hr.1, hr.2⟩
          · rintro ⟨v2, hv2, hrange⟩
            cases hv2
            have h2 := hrange hA
            have hnr : ¬ ((v : ℚ) < param.min ∨ (v : ℚ) > param.max) := by
              push_neg
              exact h2
            simp [hnr]
        · simp [hA]
    | string =>
      by_cases ho : param.options = []
      · simp [ho]
      · by_cases hc : param.options.contains value
        · simp [ho, hc]
        · simp [ho, hc]
    | bool =>
      cases hb : goParseBool value with
      | none => simp
      | some b => simp
    | stringArray => simp

/-- applyParam leaves every key other than its own config key unchanged. -/
theorem applyParam_other (settings : List (String × GoValue)) (provided : String → Bool)
    (cfg : Cfg) (kp : String × ModelParameter) (K : String) (h : goToUpper kp.1 ≠ K) :
    applyParam settings provided cfg kp K = cfg K := by
  simp only [applyParam]
  split_ifs
  · rfl
  · cases hl : settings.lookup kp.1 with
    | none => rfl
    | some v =>
      dsimp only
      cases hc : convertSetting kp.2.type v with
      | none => rfl
      | some s => simp [cfgSet, Ne.symm h]

/-- Folding applyParam over parameters whose config keys avoid K leaves the
value at K unchanged. -/
theorem foldl_applyParam_not_mem (settings : List (String × GoValue))
    (provided : String → Bool) (ps : List (String × ModelParameter)) (cfg : Cfg)
    (K : String) (h : ∀ kp ∈ ps, goToUpper kp.1 ≠ K) :
    (ps.foldl (applyParam settings provided) cfg) K = cfg K := by
  induction ps generalizing cfg with
  | nil => rfl
  | cons a rest ih =>
    rw [List.foldl_cons]
    rw [ih _ fun kp hkp => h kp (List.mem_cons_of_mem a hkp)]
    exact applyParam_other settings provided cfg a K (h a (List.mem_cons_self a rest))

/-- applyParam at its own key reads the incoming cfg only at that key. -/
theorem applyParam_congr (settings : List (String × GoValue))
    (provided : String → Bool) (cfg cfg2 : Cfg) (kp : String × ModelParameter)
    (h : cfg (goToUpper kp.1) = cfg2 (goToUpper kp.1)) :
    applyParam settings provided cfg kp (goToUpper kp.1) =
      applyParam settings provided cfg2 kp (goToUpper kp.1) := by
  simp only [applyParam]
  split_ifs
  · exact h
  · cases settings.lookup kp.1 with
    | none => exact h
    | some v =>
      dsimp only
      cases convertSetting kp.2.type v with
      | none => exact h
      | some s => simp [cfgSet]

/-- With distinct uppercased schema keys, the folded cfg at a schema key is
exactly that key's own applyParam step over the original cfg. -/
theorem foldl_applyParam_mem (settings : List (String × GoValue))
    (provided : String → Bool) (ps : List (String × ModelParameter)) (cfg : Cfg)
    (key : String) (p : ModelParameter) (hmem : (key, p) ∈ ps)
    (hnd : (ps.map fun kp => goToUpper kp.1).Nodup) :
    (ps.foldl (applyParam settings provided) cfg) (goToUpper key) =
      applyParam settings provided cfg (key, p) (goToUpper key) := by
  induction ps generalizing cfg with
  | nil => cases hmem
  | cons a rest ih =>
    rw [List.foldl_cons]
    rw [List.map_cons, List.nodup_cons] at hnd
    rcases List.mem_cons.mp hmem with heq | hmem2
    · subst heq
      rw [foldl_applyParam_not_mem]
      intro kp hkp hK
      exact hnd.1 (hK ▸ List.mem_map_of_mem (fun kp => goToUpper kp.1) hkp)
    · have hne : goToUpper a.1 ≠ goToUpper key := by
        intro hK
        exact hnd.1 (hK ▸ List.mem_map_of_mem (fun kp => goToUpper kp.1) hmem2)
      rw [ih _ hmem2 hnd.2]
      exact applyParam_congr settings provided _ cfg (key, p)
        (applyParam_other settings provided cfg a (goToUpper key) hne)

/-- C1: for every key in the active model's schema (with distinct
uppercased config keys, as in the registry), the effective value after
applyFileSettingsAsDefaults merges with increasing precedence: the built-in
default already in cfg, then the persisted file value for the active model
(falling back to the default settings section when the model has no entry)
when it converts at the schema type, then the CLI override - a key whose
flag was provided is returned untouched. -/
theorem applyFileSettings_precedence (cf : ConversationFile) (cfg : Cfg)
    (provided : String → Bool) (key : String) (p : ModelParameter)
    (hmem : (key, p) ∈ (GetModelDefinition (cfgGet cfg "MODEL")).parameters)
    (hnd : ((GetModelDefinition (cfgGet cfg "MODEL")).parameters.map
        fun kp => goToUpper kp.1).Nodup)
    (hks : goToUpper key ≠ "STREAM") (hkh : goToUpper key ≠ "HISTORY_LIMIT") :
    applyFileSettingsAsDefaults cf cfg provided (goToUpper key) =
      if provided (goToUpper key) then cfg (goToUpper key)
      else
        ((((cf.settings.models.lookup (cfgGet cfg "MODEL")).getD
            cf.settings.default).lookup key).bind
          (convertSetting p.type)).or (cfg (goToUpper key)) := by
  simp only [applyFileSettingsAsDefaults]
  have h2 : ∀ c : Cfg,
      (if provided "HISTORY_LIMIT" ∨ cf.settings.historyLimit = 0 then c
        else cfgSet c "HISTORY_LIMIT" (formatInt cf.settings.historyLimit))
        (goToUpper key) = c (goToUpper key) := by
    intro c
    split_ifs
    · rfl
    · simp [cfgSet, hkh]
  have h1 : ∀ c : Cfg,
      (if provided "STREAM" then c
        else cfgSet c "STREAM" (formatBool cf.settings.stream))
        (goToUpper key) = c (goToUpper key) := by
    intro c
    split_ifs
    · rfl
    · simp [cfgSet, hks]
  rw [h2, h1]
  rw [foldl_applyParam_mem _ provided _ cfg key p hmem hnd]
  simp only [applyParam]
  split_ifs with hp
  · rfl
  · cases hl : ((cf.settings.models.lookup (cfgGet cfg "MODEL")).getD
        cf.settings.default).lookup key with
    | none => rfl
    | some v =>
      dsimp only
      cases hc : convertSetting p.type v with
      | none => simp [cfgSet, hc]
      | some s => simp [cfgSet, hc]

/-- C1 witness: with the default model, the persisted temperature 0.7
overrides the built-in value "1" when the flag was not provided, and a
CLI-provided temperature is never overwritten by the file's value. -/
theorem applyFileSettings_precedence_witness :
    applyFileSettingsAsDefaults settingsFile defaultCfg (fun _ => false) "TEMPERATURE" =
      some "0.7" ∧
    applyFileSettingsAsDefaults settingsFile defaultCfg (fun k => k == "TEMPERATURE")
      "TEMPERATURE" = some "1" := by
  constructor
  · have h := applyFileSettings_precedence settingsFile defaultCfg (fun _ => false)
      "temperature" ⟨.float, .float 1, 0, 1, [], "temperature"⟩
      (List.Mem.head _) (by decide) (by decide) (by decide)
    exact h.trans (by decide)
  · have h := applyFileSettings_precedence settingsFile defaultCfg
      (fun k => k == "TEMPERATURE")
      "temperature" ⟨.float, .float 1, 0, 1, [], "temperature"⟩
      (List.Mem.head _) (by decide) (by decide) (by decide)
    exact h.trans (by decide)

/-- Lookup after alistInsert at the inserted key. -/
theorem alistInsert_lookup_self {α : Type} (l : List (String × α)) (k : String) (v : α) :
    (alistInsert l k v).lookup k = some v := by
  induction l with
  | nil => simp [alistInsert, List.lookup]
  | cons a rest ih =>
    obtain ⟨k2, v2⟩ := a
    by_cases hk : k2 = k
    · simp [alistInsert, hk, List.lookup]
    · have hk2 : (k == k2) = false := by simp [Ne.symm hk]
      simp [alistInsert, hk, List.lookup, hk2, ih]

/-- Lookup after alistInsert at any other key. -/
theorem alistInsert_lookup_other {α : Type} (l : List (String × α)) (k k2 : String)
    (v : α) (h : k2 ≠ k) : (alistInsert l k v).lookup k2 = l.lookup k2 := by
  have hbe : (k2 == k) = false := by simp [h]
  induction l with
  | nil => simp [alistInsert, List.lookup, hbe]
  | cons a rest ih =>
    obtain ⟨k3, v3⟩ := a
    by_cases hk : k3 = k
    · subst hk
      simp [alistInsert, List.lookup, hbe]
    · by_cases h23 : k2 = k3
      · subst h23
        simp [alistInsert, hk, List.lookup]
      · have hb23 : (k2 == k3) = false := by simp [h23]
        simp [alistInsert, hk, List.lookup, hb23, ih]

/-- The buildPayload loop body, expressed through its contribution. -/
theorem buildPayloadStep_contribution (cfg : Cfg) (modelName : String)
    (pl : List (String × PayloadValue)) (kp : String × ModelParameter) :
    buildPayloadStep cfg modelName pl kp =
      match payloadContribution cfg modelName kp with
      | some v => alistInsert pl kp.2.apiKey v
      | none => pl := by
  simp only [buildPayloadStep, payloadContribution]
  by_cases hk : kp.2.apiKey = ""
  · simp [hk]
  · simp only [hk, if_false]
    cases hcv : cfg (goToUpper kp.1) with
    | none => rfl
    | some valStr =>
      dsimp only
      cases ht : kp.2.type with
      | float => cases goParseFloat valStr <;> rfl
      | int =>
        cases goAtoi valStr with
        | none => rfl
        | some v =>
          dsimp only [Option.some_bind]
          split_ifs <;> rfl
      | string => split_ifs <;> rfl
      | stringArray => split_ifs <;> rfl
      | bool => cases goParseBool valStr <;> rfl

/-- The loop body leaves every payload key other than its own APIKey
unchanged. -/
theorem buildPayloadStep_lookup_other (cfg : Cfg) (modelName : String)
    (pl : List (String × PayloadValue)) (kp : String × ModelParameter) (K : String)
    (h : kp.2.apiKey ≠ K) :
    (buildPayloadStep cfg modelName pl kp).lookup K = pl.lookup K := by
  rw [buildPayloadStep_contribution]
  cases payloadContribution cfg modelName kp with
  | none => rfl
  | some v =>
    dsimp only
    exact alistInsert_lookup_other pl kp.2.apiKey K v (Ne.symm h)

/-- Folding the loop over parameters whose APIKeys avoid K leaves the value
at K unchanged. -/
theorem foldl_buildPayloadStep_not_mem (cfg : Cfg) (modelName : String)
    (ps : List (String × ModelParameter)) (pl : List (String × PayloadValue))
    (K : String) (h : ∀ kp ∈ ps, kp.2.apiKey ≠ K) :
    (ps.foldl (buildPayloadStep cfg modelName) pl).lookup K = pl.lookup K := by
  induction ps generalizing pl with
  | nil => rfl
  | cons a rest ih =>
    rw [List.foldl_cons]
    rw [ih _ fun kp hkp => h kp (List.mem_cons_of_mem a hkp)]
    exact buildPayloadStep_lookup_other cfg modelName pl a K
      (h a (List.mem_cons_self a rest))

/-- With distinct APIKeys, folding the loop yields at a schema parameter's
APIKey exactly that parameter's contribution, or the incoming value when
the parameter is omitted. -/
theorem foldl_buildPayloadStep_mem (cfg : Cfg) (modelName : String)
    (ps : List (String × ModelParameter)) (pl : List (String × PayloadValue))
    (key : String) (p : ModelParameter) (hmem : (key, p) ∈ ps)
    (hnd : (ps.map fun kp => kp.2.apiKey).Nodup) :
    (ps.foldl (buildPayloadStep cfg modelName) pl).lookup p.apiKey =
      match payloadContribution cfg modelName (key, p) with
      | some v => some v
      | none => pl.lookup p.apiKey := by
  induction ps generalizing pl with
  | nil => cases hmem
  | cons a rest ih =>
    rw [List.foldl_cons]
    rw [List.map_cons, List.nodup_cons] at hnd
    rcases List.mem_cons.mp hmem with heq | hmem2
    · subst heq
      rw [foldl_buildPayloadStep_not_mem _ _ _ _ _ (fun kp hkp hK2 => hnd.1 (by
        rw [← hK2]
        exact List.mem_map_of_mem (fun kp => kp.2.apiKey) hkp))]
      rw [buildPayloadStep_contribution]
      cases payloadContribution cfg modelName (key, p) with
      | none => rfl
      | some v =>
        dsimp only
        exact alistInsert_lookup_self pl p.apiKey v
    · have hne : a.2.apiKey ≠ p.apiKey := by
        intro hK
        refine hnd.1 ?_
        rw [hK]
        exact List.mem_map_of_mem (fun kp => kp.2.apiKey) hmem2
      rw [ih _ hmem2 hnd.2]
      cases payloadContribution cfg modelName (key, p) with
      | none =>
        dsimp only
        exact buildPayloadStep_lookup_other cfg modelName pl a p.apiKey hne
      | some v => rfl

/-- The kwargs step leaves every key other than chat_template_kwargs
unchanged. -/
theorem buildPayloadKwargs_lookup_other (cfg : Cfg) (modelDef : ModelDefinition)
    (pl : List (String × PayloadValue)) (K : String)
    (h : K ≠ "chat_template_kwargs") :
    (buildPayloadKwargs cfg modelDef pl).lookup K = pl.lookup K := by
  simp only [buildPayloadKwargs]
  split_ifs
  · cases goParseBool (cfgGet cfg "THINKING") with
    | none => rfl
    | some b => exact alistInsert_lookup_other _ _ _ _ h
  · rfl

/-- The seed-nil step leaves every key unchanged unless the model is
deepseek v3.1 and the key is seed. -/
theorem buildPayloadSeedNull_lookup_other (modelName : String)
    (pl : List (String × PayloadValue)) (K : String)
    (h : modelName ≠ "deepseek-ai/deepseek-v3.1" ∨ K ≠ "seed") :
    (buildPayloadSeedNull modelName pl).lookup K = pl.lookup K := by
  simp only [buildPayloadSeedNull]
  split_ifs with hm
  · rcases h with h | h
    · exact absurd hm h
    · cases pl.lookup "seed" with
      | none => exact alistInsert_lookup_other _ _ _ _ h
      | some v => rfl
  · rfl

/-- For deepseek v3.1 the seed key after the seed-nil step holds the
incoming value, or null when none was present. -/
theorem buildPayloadSeedNull_lookup_seed (modelName : String)
    (pl : List (String × PayloadValue))
    (hm : modelName = "deepseek-ai/deepseek-v3.1") :
    (buildPayloadSeedNull modelName pl).lookup "seed" =
      some ((pl.lookup "seed").getD .null) := by
  simp only [buildPayloadSeedNull, if_pos hm]
  cases h : pl.lookup "seed" with
  | none =>
    dsimp only
    rw [alistInsert_lookup_self]
    rfl
  | some v => simp [h]

/-- C10 counterexample: with the nemotron nano model over the built-in cfg
defaults - a reachable single-prompt run - min_thinking_tokens is omitted
from the payload although its APIKey is non-empty and it is neither the
seed-zero case nor the empty-stop case, so the claimed "exactly three
cases" is false. -/
theorem buildPayload_omission_counterexample : ¬ ClaimedOmission nanoCfg [] := by
  intro h
  have hx := h ("min_thinking_tokens",
      { type := .int, default := .int 1024, min := 1, max := 4096,
        apiKey := "min_thinking_tokens" })
    (List.Mem.tail _ (List.Mem.tail _ (List.Mem.tail _ (List.Mem.head _)))) rfl
  rcases hx with h1 | h2 | h3
  · exact absurd h1 (by decide)
  · exact absurd h2.1 (by decide)
  · exact absurd h3.1 (by decide)

/-- C10 (amended): every payload carries model, messages and stream, and a
schema parameter's APIKey is present exactly when its loop contribution is:
it is omitted when the APIKey is empty, the cfg lacks the key, the value
fails to parse at the schema type, it is seed = 0 on a non-deepseek model,
or it is stop with the empty value - except that deepseek v3.1 receives an
explicit null seed when no seed was contributed.  Hypotheses: distinct
APIKeys avoiding the reserved payload keys, as in the registry. -/
theorem buildPayload_omission_characterization (cfg : Cfg) (messages : List Message)
    (key : String) (p : ModelParameter)
    (hmem : (key, p) ∈ (GetModelDefinition (cfgGet cfg "MODEL")).parameters)
    (hnd : ((GetModelDefinition (cfgGet cfg "MODEL")).parameters.map
        fun kp => kp.2.apiKey).Nodup)
    (hres : ∀ kp ∈ (GetModelDefinition (cfgGet cfg "MODEL")).parameters,
      kp.2.apiKey ∉ (["model", "messages", "stream", "chat_template_kwargs"] : List String))
    (hne : p.apiKey ≠ "") :
    ((buildPayload cfg messages).lookup "model" = some (.str (cfgGet cfg "MODEL")) ∧
     (buildPayload cfg messages).lookup "messages" = some (.messages messages) ∧
     (buildPayload cfg messages).lookup "stream" =
       some (.bool (cfgGet cfg "STREAM" = "true"))) ∧
    (buildPayload cfg messages).lookup p.apiKey =
      (if cfgGet cfg "MODEL" = "deepseek-ai/deepseek-v3.1" ∧ p.apiKey = "seed" then
        some ((payloadContribution cfg (cfgGet cfg "MODEL") (key, p)).getD .null)
      else payloadContribution cfg (cfgGet cfg "MODEL") (key, p)) := by
  constructor
  · refine ⟨?_, ?_, ?_⟩
    · simp only [buildPayload]
      rw [buildPayloadSeedNull_lookup_other _ _ _ (Or.inr (by decide))]
      rw [buildPayloadKwargs_lookup_other _ _ _ _ (by decide)]
      rw [foldl_buildPayloadStep_not_mem _ _ _ _ _
        (fun kp hkp hK => hres kp hkp (by rw [hK]; simp))]
      rfl
    · simp only [buildPayload]
      rw [buildPayloadSeedNull_lookup_other _ _ _ (Or.inr (by decide))]
      rw [buildPayloadKwargs_lookup_other _ _ _ _ (by decide)]
      rw [foldl_buildPayloadStep_not_mem _ _ _ _ _
        (fun kp hkp hK => hres kp hkp (by rw [hK]; simp))]
      rfl
    · simp only [buildPayload]
      rw [buildPayloadSeedNull_lookup_other _ _ _ (Or.inr (by decide))]
      rw [buildPayloadKwargs_lookup_other _ _ _ _ (by decide)]
      rw [foldl_buildPayloadStep_not_mem _ _ _ _ _
        (fun kp hkp hK => hres kp hkp (by rw [hK]; simp))]
      rfl
  · have hch : p.apiKey ≠ "chat_template_kwargs" := fun hx =>
      hres (key, p) hmem (by rw [hx]; simp)
    have h1 : p.apiKey ≠ "model" := fun hx => hres (key, p) hmem (by rw [hx]; simp)
    have h2 : p.apiKey ≠ "messages" := fun hx => hres (key, p) hmem (by rw [hx]; simp)
    have h3 : p.apiKey ≠ "stream" := fun hx => hres (key, p) hmem (by rw [hx]; simp)
    by_cases hds : cfgGet cfg "MODEL" = "deepseek-ai/deepseek-v3.1" ∧ p.apiKey = "seed"
    · rw [if_pos hds]
      simp only [buildPayload]
      rw [hds.2]
      rw [buildPayloadSeedNull_lookup_seed _ _ hds.1]
      rw [buildPayloadKwargs_lookup_other _ _ _ _ (by decide)]
      rw [← hds.2]
      rw [foldl_buildPayloadStep_mem cfg _ _ _ key p hmem hnd]
      cases hcontrib : payloadContribution cfg (cfgGet cfg "MODEL") (key, p) with
      | some v => rfl
      | none =>
        dsimp only
        rw [hds.2]
        rfl
    · rw [if_neg hds]
      simp only [buildPayload]
      rw [buildPayloadSeedNull_lookup_other _ _ _
        (by rw [Decidable.not_and_iff_or_not] at hds; exact hds)]
      rw [buildPayloadKwargs_lookup_other _ _ _ _ hch]
      rw [foldl_buildPayloadStep_mem cfg _ _ _ key p hmem hnd]
      cases hcontrib : payloadContribution cfg (cfgGet cfg "MODEL") (key, p) with
      | some v => rfl
      | none =>
        dsimp only
        have hb1 : (p.apiKey == "model") = false := by simp [h1]
        have hb2 : (p.apiKey == "messages") = false := by simp [h2]
        have hb3 : (p.apiKey == "stream") = false := by simp [h3]
        simp [List.lookup, hb1, hb2, hb3]

/-- C10 witness: deepseek v3.1 with no seed value in cfg receives the
explicit null seed, and the payload carries the model key. -/
theorem buildPayload_omission_witness :
    (buildPayload deepseekThinkingCfg []).lookup "seed" = some .null ∧
    (buildPayload deepseekThinkingCfg []).lookup "model" =
      some (.str "deepseek-ai/deepseek-v3.1") := by
  have hres : ∀ kp ∈ (GetModelDefinition (cfgGet deepseekThinkingCfg "MODEL")).parameters,
      kp.2.apiKey ∉ (["model", "messages", "stream", "chat_template_kwargs"] :
        List String) := by
    intro kp hkp
    fin_cases hkp <;> decide
  have hnd : ((GetModelDefinition (cfgGet deepseekThinkingCfg "MODEL")).parameters.map
      fun kp => kp.2.apiKey).Nodup := by decide
  have h := buildPayload_omission_characterization deepseekThinkingCfg []
    "seed" ⟨.int, .null, 0, 0, [], "seed"⟩
    (List.Mem.tail _ (List.Mem.tail _ (List.Mem.tail _ (List.Mem.tail _
      (List.Mem.head _)))))
    hnd hres (by decide)
  refine ⟨?_, ?_⟩
  · exact h.2.trans (by decide)
  · exact h.1.1.trans (by decide)

/-- Hoisting the accumulator out of a string-append fold. -/
theorem foldl_append_hoist (l : List String) (x : String) :
    List.foldl (fun r s => r ++ s) x l = x ++ List.foldl (fun r s => r ++ s) "" l := by
  induction l generalizing x with
  | nil => simp
  | cons a l ih =>
    rw [List.foldl_cons, List.foldl_cons, ih (x ++ a), ih ("" ++ a)]
    rw [String.empty_append, String.append_assoc]

/-- String.join over a cons. -/
theorem stringJoin_cons (s : String) (l : List String) :
    String.join (s :: l) = s ++ String.join l := by
  show List.foldl (fun r s => r ++ s) ("" ++ s) l = _
  rw [String.empty_append, foldl_append_hoist]
  rfl

/-- The handleStream loop equals the fold of the per-chunk buffer update
over the extracted reasoning/content pairs. -/
theorem foldl_processStreamLine_eq (lines : List String) (st : StreamState) :
    lines.foldl processStreamLine st = (lines.filterMap streamLineRC).foldl applyRC st := by
  induction lines generalizing st with
  | nil => rfl
  | cons l rest ih =>
    rw [List.foldl_cons, List.filterMap_cons]
    cases h : streamLineRC l with
    | none =>
      simp only [processStreamLine, h]
      exact ih st
    | some rc =>
      simp only [processStreamLine, h, List.foldl_cons]
      exact ih (applyRC st rc)

/-- When every extracted chunk has empty reasoning, the buffer fold is the
plain concatenation of the content fields. -/
theorem foldl_applyRC_no_reasoning (segs : List (String × String)) (st : StreamState)
    (hst : st.inReasoning = false) (h : ∀ seg ∈ segs, seg.1 = "") :
    segs.foldl applyRC st =
      { buf := st.buf ++ String.join (segs.map Prod.snd), inReasoning := false } := by
  induction segs generalizing st with
  | nil =>
    cases st
    simp_all [String.join]
  | cons a rest ih =>
    have ha : applyRC st a = { buf := st.buf ++ a.2, inReasoning := false } := by
      obtain ⟨r, c⟩ := a
      have hr : r = "" := h (r, c) (List.mem_cons_self _ _)
      subst hr
      cases st
      simp only [applyRC]
      by_cases hc : c = ""
      · subst hc
        simp_all
      · simp_all
    rw [List.foldl_cons, ha,
      ih _ rfl fun seg hseg => h seg (List.mem_cons_of_mem a hseg)]
    rw [List.map_cons, stringJoin_cons, String.append_assoc]

/-- C7 counterexample: handleStream also accepts a parseable chunk line
without the data: prefix and wraps its reasoning in the sentinel markers,
so its output differs from the claimed plain concatenation over
data:-prefixed chunks. -/
theorem handleStream_concat_counterexample :
    handleStream
        ["\x7b\"choices\":[\x7b\"delta\":\x7b\"content\":\"c\",\"reasoning_content\":\"r\"\x7d\x7d]\x7d"] ≠
      claimedStreamOutput
        ["\x7b\"choices\":[\x7b\"delta\":\x7b\"content\":\"c\",\"reasoning_content\":\"r\"\x7d\x7d]\x7d"] := by
  decide

/-- C7 (amended): the streamed decoder folds over all lines, stripping an
optional data: prefix, skipping blank lines, the DONE marker, unparsable
chunks and chunks without choices, and concatenates the extracted delta (or,
when delta is absent, message) reasoning and content fields in order, each
maximal reasoning run enclosed in the sentinel markers - so with no
reasoning present the output is the plain concatenation of the content
fields; the non-streamed decoder extracts content and reasoning from
choices[0].delta with per-field fallback to choices[0].message and, for a
body parsed as a JSON object, errors exactly when neither yields text,
otherwise returning the reasoning (in its markers) followed by the content. -/
theorem response_decoder_characterization (lines : List String) (body : String) :
    handleStream lines = renderSegments (extractSegments lines) ∧
    ((∀ seg ∈ extractSegments lines, seg.1 = "") →
      handleStream lines = String.join ((extractSegments lines).map Prod.snd)) ∧
    (∀ fields, parseJson body = some (.obj fields) →
      ((∃ e, handleNonStream body = .error e) ↔ nonStreamRC fields = ("", ""))) ∧
    (∀ fields out, parseJson body = some (.obj fields) →
      handleNonStream body = .ok out →
      out = (if (nonStreamRC fields).1 ≠ "" then
          "[Begin of Assistant Reasoning]\n" ++ (nonStreamRC fields).1 ++
            "\n[End of Assistant Reasoning]\n\n"
        else "") ++ (nonStreamRC fields).2) := by
  refine ⟨?_, ?_, ?_, ?_⟩
  · rw [handleStream, renderSegments, extractSegments, foldl_processStreamLine_eq]
  · intro h
    rw [handleStream, foldl_processStreamLine_eq]
    have hfold := foldl_applyRC_no_reasoning (extractSegments lines)
      { buf := "", inReasoning := false } rfl h
    simp only [extractSegments] at hfold
    rw [hfold]
    simp [extractSegments]
  · intro fields hp
    simp only [handleNonStream, hp]
    set rc := nonStreamRC fields with hrc
    by_cases hr : rc.1 = ""
    · by_cases hc : rc.2 = ""
      · have hz : ((if rc.1 ≠ "" then
            "[Begin of Assistant Reasoning]\n" ++ rc.1 ++
              "\n[End of Assistant Reasoning]\n\n"
          else "") ++ rc.2) = "" := by
          rw [if_neg (not_not.mpr hr), String.empty_append, hc]
        rw [if_pos hz]
        constructor
        · intro _
          exact Prod.ext hr hc
        · intro _
          exact ⟨_, rfl⟩
      · have hz : ¬ ((if rc.1 ≠ "" then
            "[Begin of Assistant Reasoning]\n" ++ rc.1 ++
              "\n[End of Assistant Reasoning]\n\n"
          else "") ++ rc.2) = "" := by
          rw [if_neg (not_not.mpr hr), String.empty_append]
          exact hc
        rw [if_neg hz]
        constructor
        · rintro ⟨e, he⟩
          cases he
        · intro hco
          exact absurd (congrArg Prod.snd hco) hc
    · have hz : ¬ ((if rc.1 ≠ "" then
          "[Begin of Assistant Reasoning]\n" ++ rc.1 ++
            "\n[End of Assistant Reasoning]\n\n"
        else "") ++ rc.2) = "" := by
        rw [if_pos hr]
        intro h0
        have hlen := congrArg String.length h0
        simp only [String.length_append] at hlen
        have h31 : ("[Begin of Assistant Reasoning]\n" : String).length = 31 := rfl
        have h0len : ("" : String).length = 0 := rfl
        omega
      rw [if_neg hz]
      constructor
      · rintro ⟨e, he⟩
        cases he
      · intro hco
        exact absurd (congrArg Prod.fst hco) hr
  · intro fields out hp hok
    simp only [handleNonStream, hp] at hok
    by_cases hz : ((if (nonStreamRC fields).1 ≠ "" then
        "[Begin of Assistant Reasoning]\n" ++ (nonStreamRC fields).1 ++
          "\n[End of Assistant Reasoning]\n\n"
      else "") ++ (nonStreamRC fields).2) = ""
    · rw [if_pos hz] at hok
      cases hok
    · rw [if_neg hz] at hok
      cases hok
      rfl

/-- C7 witness: a two-chunk stream with no reasoning decodes to the plain
concatenation of its contents, and a non-streamed body with an empty
choices array is an error. -/
theorem response_decoder_characterization_witness :
    handleStream
        ["data: \x7b\"choices\":[\x7b\"delta\":\x7b\"content\":\"c1\"\x7d\x7d]\x7d",
         "data: \x7b\"choices\":[\x7b\"delta\":\x7b\"content\":\"c2\"\x7d\x7d]\x7d"] = "c1c2" ∧
    (∃ e, handleNonStream "\x7b\"choices\":[]\x7d" = .error e) := by
  refine ⟨((response_decoder_characterization
      ["data: \x7b\"choices\":[\x7b\"delta\":\x7b\"content\":\"c1\"\x7d\x7d]\x7d",
       "data: \x7b\"choices\":[\x7b\"delta\":\x7b\"content\":\"c2\"\x7d\x7d]\x7d"]
      "").2.1 ?_).trans rfl,
    ((response_decoder_characterization [] "\x7b\"choices\":[]\x7d").2.2.1
      [("choices", .arr [])] rfl).mpr rfl⟩
  intro seg hseg
  have he : extractSegments
      ["data: \x7b\"choices\":[\x7b\"delta\":\x7b\"content\":\"c1\"\x7d\x7d]\x7d",
       "data: \x7b\"choices\":[\x7b\"delta\":\x7b\"content\":\"c2\"\x7d\x7d]\x7d"] =
      [("", "c1"), ("", "c2")] := rfl
  rw [he] at hseg
  rcases List.mem_cons.mp hseg with h | h2
  · rw [h]
  · rcases List.mem_cons.mp h2 with h | h3
    · rw [h]
    · cases h3

end NvidiaChat
